import Mathlib

/-!
Shallow embedding of `src/app.py` of the DigiBiomics respiratory-condition
prediction service, covering the parts the specification's claims are
about: the `AudioTrimmer` transformer, the `FeatureStatisticsCalculator`
transformer together with the static excluded-column list of
`create_pipeline`, the `LABEL_MAP` lookup inside `predict_condition`, and
the `/predict` Flask handler.

Modelling conventions:
* waveform samples, feature values and probabilities are rationals;
* a Python exception is `Except String` (carrying `str(e)`);
* a numpy scalar coming out of the classifier (`model.predict(...)[0]`
  and the entries of `model.classes_`) is modelled by the two operations
  the code applies to it: `int(c)` (which can raise, hence `Option Int`)
  and `str(c)`;
* the external world of the handler (writing the uploaded file, invoking
  the prediction) is an explicit effect trace;
* the pre-trained model artifact, `joblib.load`, `librosa` and the
  classifier itself are external to the repository; the classifier's
  outputs are abstracted as a `ModelBehavior`.
-/

/-! ## AudioTrimmer (src/app.py lines 42-63) -/

/-- Python `int()` truncation toward zero applied to a real number, used
for `int(self.target_duration * audio_info['sample_rate'])`. -/
def pyTrunc (q : ℚ) : Int :=
  if 0 ≤ q then ⌊q⌋ else -⌊-q⌋

/-- Line 52: `target_samples = int(self.target_duration * audio_info['sample_rate'])`. -/
def targetSamples (target_duration : ℚ) (sample_rate : ℕ) : Int :=
  pyTrunc (target_duration * sample_rate)

/-- One entry of the dict produced by `AudioLoader.transform`:
`{'data': y, 'sample_rate': sr}`. -/
structure AudioInfo where
  data : List ℚ
  sample_rate : ℕ
deriving DecidableEq

/-- One entry of the dict produced by `AudioTrimmer.transform`:
`{'data': ..., 'sample_rate': ..., 'duration': ...}`. -/
structure TrimmedAudio where
  data : List ℚ
  sample_rate : ℕ
  duration : ℚ
deriving DecidableEq

/-- Python list slice `data[:stop]` for an arbitrary integer `stop`
(a negative `stop` counts from the end, clamped at zero). -/
def pySliceTo (l : List ℚ) (stop : Int) : List ℚ :=
  if 0 ≤ stop then l.take stop.toNat
  else l.take ((l.length : Int) + stop).toNat

/-- Body of the per-file loop of `AudioTrimmer.transform` (lines 52-62):
pad with trailing zeros up to `target_samples` when the waveform is
shorter, otherwise keep only the first `target_samples` samples. -/
def trimOne (target_duration : ℚ) (a : AudioInfo) : TrimmedAudio :=
  let target_samples := targetSamples target_duration a.sample_rate
  let data :=
    if (a.data.length : Int) < target_samples then
      a.data ++ List.replicate (target_samples - (a.data.length : Int)).toNat 0
    else
      pySliceTo a.data target_samples
  ⟨data, a.sample_rate, target_duration⟩

/-- Method `AudioTrimmer.transform` (lines 49-63): the per-file loop over the
dict of decoded waveforms. -/
def audioTrimmerTransform (target_duration : ℚ) (X : List (String × AudioInfo)) :
    List (String × TrimmedAudio) :=
  X.map fun e => (e.1, trimOne target_duration e.2)

/-! ## Label map and predict_condition (src/app.py lines 15-24 and 123-140) -/

/-- Lines 15-24: the fixed `LABEL_MAP` dictionary. -/
def LABEL_MAP : List (Int × String) :=
  [(0, "Asthma"), (1, "Bronchiectasis"), (2, "Bronchiolitis"), (3, "COPD"),
   (4, "Pneumonia"), (5, "LRTI"), (6, "Healthy"), (7, "URTI")]

/-- Set of the eight label strings (the values of `LABEL_MAP`). -/
def labelSet : List String := LABEL_MAP.map Prod.snd

/-- Python `LABEL_MAP.get(k, default)`. -/
def labelMapGet (k : Int) (default : String) : String :=
  match LABEL_MAP.find? (fun kv => kv.1 == k) with
  | some kv => kv.2
  | none => default

/-- Model of a scalar class value coming out of the classifier, through
the two operations the code applies to it: `toIntOpt` is `int(c)`
(`none` when the conversion raises, as for a non-numeric string) and
`strRepr` is `str(c)`. -/
structure PyVal where
  toIntOpt : Option Int
  strRepr : String
deriving DecidableEq

/-- Python `int(c)` on a class value: raises when the value is not
convertible to an integer. -/
def pyIntVal (v : PyVal) : Except String Int :=
  match v.toIntOpt with
  | some i => Except.ok i
  | none => Except.error ("invalid literal for int() with base 10: " ++ v.strRepr)

/-- Expression `LABEL_MAP.get(int(c), str(c))` (lines 134 and 137). -/
def classLabel (c : PyVal) : Except String String := do
  let i ← pyIntVal c
  pure (labelMapGet i c.strRepr)

/-- Total variant of `classLabel`, meaningful when `int(c)` succeeds;
used only to state distinctness hypotheses. -/
def classKeyD (c : PyVal) : String :=
  labelMapGet (c.toIntOpt.getD 0) c.strRepr

/-- Python dict assignment `d[k] = v`: updating an existing key keeps its
position, a new key is appended. -/
def dictInsert (d : List (String × ℚ)) (k : String) (v : ℚ) : List (String × ℚ) :=
  if d.any (fun kv => kv.1 == k) then
    d.map (fun kv => if kv.1 == k then (kv.1, v) else kv)
  else d ++ [(k, v)]

/-- Dict comprehension of lines 136-139:
`{LABEL_MAP.get(int(c), str(c)): float(p) for c, p in zip(classes, probabilities)}`,
evaluated left to right, raising on the first failing `int()`. -/
def buildAllProbabilities (classes : List PyVal) (probs : List ℚ) :
    Except String (List (String × ℚ)) :=
  (classes.zip probs).foldlM
    (fun d cp => do
      let k ← classLabel cp.1
      pure (dictInsert d k cp.2))
    []

/-- Line 131: `np.max(probabilities)`, which raises on an empty array. -/
def npArrayMax (l : List ℚ) : Except String ℚ :=
  match l with
  | [] => Except.error "zero-size array to reduction operation maximum which has no identity"
  | x :: xs => Except.ok (xs.foldl max x)

/-- Return value of `predict_condition` (lines 133-140). -/
structure PredictResult where
  prediction : String
  probability : ℚ
  all_probabilities : List (String × ℚ)
deriving DecidableEq

/-- Lines 129-140 of `predict_condition`, after the pipeline has run: the
classifier's outputs are `predictedClass` (`model.predict(features_df)[0]`),
`classes` (`model.classes_`) and `probs` (`model.predict_proba(features_df)[0]`).
Evaluation order follows the source: `np.max(probabilities)` first, then the
result dict literal, whose `prediction` value is computed before the
`all_probabilities` comprehension. -/
def predictionOutcome (predictedClass : PyVal) (classes : List PyVal) (probs : List ℚ) :
    Except String PredictResult := do
  let max_prob ← npArrayMax probs
  let predLabel ← classLabel predictedClass
  let allp ← buildAllProbabilities classes probs
  pure ⟨predLabel, max_prob, allp⟩

/-- Abstraction of the de-serialized classifier's behavior on the one-row
feature table of the current request. -/
structure ModelBehavior where
  predictedClass : PyVal
  classes : List PyVal
  probs : List ℚ

/-- Default of the `model_path` parameter of `predict_condition` (line 123). -/
def model_path : String := "respiratory_classifier.pkl"

/-- Function `predict_condition` (lines 123-140): raises `FileNotFoundError`
with the message of line 125 when the model artifact is absent, otherwise
loads the model, runs the pipeline and builds the result from the
classifier's outputs (abstracted as `ModelBehavior`). -/
def predict_condition (modelFileExists : Bool) (m : ModelBehavior) :
    Except String PredictResult :=
  if modelFileExists then
    predictionOutcome m.predictedClass m.classes m.probs
  else
    Except.error ("Model file not found: " ++ model_path)

instance {ε α : Type} [DecidableEq ε] [DecidableEq α] : DecidableEq (Except ε α) := fun a b =>
  match a, b with
  | Except.ok x, Except.ok y =>
    if h : x = y then isTrue (by rw [h]) else isFalse (by simp [h])
  | Except.error x, Except.error y =>
    if h : x = y then isTrue (by rw [h]) else isFalse (by simp [h])
  | Except.ok _, Except.error _ => isFalse (by simp)
  | Except.error _, Except.ok _ => isFalse (by simp)

/-! ## FeatureStatisticsCalculator (src/app.py lines 88-110) and the
excluded-column list of create_pipeline (line 114) -/

/-- One cell of the pandas DataFrame: either a Python string (an `object`
cell, as the filename is) or a numeric value. -/
inductive Cell where
  | str : String → Cell
  | num : ℚ → Cell
deriving DecidableEq

/-- Whether a cell holds a Python string. -/
def Cell.isStr : Cell → Bool
  | Cell.str _ => true
  | Cell.num _ => false

/-- One row of the DataFrame, as the ordered dict of line 98-103. -/
abbrev Row := List (String × Cell)

/-- Value of `np.mean(data)` over the flattened feature array. -/
def npMean (l : List ℚ) : ℚ := l.sum / l.length

/-- Value of `np.max(data)` over the flattened (nonempty, in every use by the
pipeline) feature array. -/
def npMaxOf (l : List ℚ) : ℚ := l.foldl max (l.headD 0)

/-- Value of `np.min(data)` like `npMaxOf`. -/
def npMinOf (l : List ℚ) : ℚ := l.foldl min (l.headD 0)

/-- Body of the per-file loop of lines 98-104: the row dict starts with the
filename and then holds the four summary statistics of every feature, under
the keys `f'{feature_name}_mean'` and so on.  `np.std` is the square root
of the variance, which is in general irrational; because every claim about
this table depends only on the column names and on the cell being numeric,
the std reducer is taken as a parameter `stdFn` ranging over all
numeric-valued reducers, of which the real `np.std` is one. -/
def fileStatsRow (stdFn : List ℚ → ℚ) (filename : String)
    (features : List (String × List ℚ)) : Row :=
  ("filename", Cell.str filename) ::
    features.flatMap fun f =>
      [(f.1 ++ "_mean", Cell.num (npMean f.2)),
       (f.1 ++ "_std", Cell.num (stdFn f.2)),
       (f.1 ++ "_max", Cell.num (npMaxOf f.2)),
       (f.1 ++ "_min", Cell.num (npMinOf f.2))]

/-- Columns of `pd.DataFrame(feature_stats)`: the union of the row keys in
order of first appearance. -/
def dfColumns (df : List Row) : List String :=
  df.foldl (fun acc row => acc ++ (row.map Prod.fst).filter (fun c => ¬ c ∈ acc)) []

/-- Column drop `df.drop(feature, axis=1)` (line 109). -/
def dfDrop (df : List Row) (c : String) : List Row :=
  df.map fun row => row.filter fun kv => kv.1 ≠ c

/-- Whether a pandas column has `object` dtype: it does exactly when some
cell of it is a Python string. -/
def colIsObject (df : List Row) (c : String) : Bool :=
  df.any fun row => row.any fun kv => kv.1 == c && kv.2.isStr

/-- Line 110: `df.select_dtypes(exclude=['object'])` keeps the columns whose
dtype is not `object`. -/
def selectNonObject (df : List Row) : List Row :=
  df.map fun row => row.filter fun kv => ¬ colIsObject df kv.1

/-- Method `FeatureStatisticsCalculator.transform` (lines 95-110): build one
statistics row per file, drop each configured excluded column that is
present, then keep only non-object columns. -/
def calcStatsTransform (stdFn : List ℚ → ℚ) (excluded : List String)
    (X : List (String × List (String × List ℚ))) : List Row :=
  let feature_stats := X.map fun e => fileStatsRow stdFn e.1 e.2
  let df := excluded.foldl (fun d c => if c ∈ dfColumns d then dfDrop d c else d) feature_stats
  selectNonObject df

/-- Line 114: `excluded_features = ['mel_spectrogram_min', 'chroma_stft_max']`
as configured by `create_pipeline`. -/
def excluded_features : List String := ["mel_spectrogram_min", "chroma_stft_max"]

/-! ## The /predict Flask handler (src/app.py lines 148-164) -/

/-- JSON values produced by `jsonify`. -/
inductive Json where
  | str : String → Json
  | num : ℚ → Json
  | obj : List (String × Json) → Json

/-- Whether a JSON object carries the given top-level field. -/
def jsonHasKey : Json → String → Bool
  | Json.obj l, k => l.any fun kv => kv.1 == k
  | _, _ => false

/-- An uploaded file of the multipart form data: its client-supplied
filename and its content bytes. -/
structure UploadedFile where
  filename : String
  content : String
deriving DecidableEq

/-- Externally visible actions of the handler: writing the uploaded file to
a path, and invoking `predict_condition` on a path. -/
inductive Effect where
  | saveFile : String → String → Effect
  | runPrediction : String → Effect
deriving DecidableEq

/-- Paths written by `file.save` within an effect trace. -/
def savedPaths (effects : List Effect) : List String :=
  effects.filterMap fun eff =>
    match eff with
    | Effect.saveFile p _ => some p
    | _ => none

/-- An HTTP response: status code and JSON body. -/
structure HttpResponse where
  status : ℕ
  body : Json

/-- Python `os.path.join(a, b)` on POSIX for a single extra component. -/
def osPathJoin (a b : String) : String :=
  if b.startsWith "/" then b
  else if a = "" ∨ a.endsWith "/" then a ++ b
  else a ++ "/" ++ b

/-- Value `jsonify(result)` of line 160. -/
def resultToJson (r : PredictResult) : Json :=
  Json.obj
    [("prediction", Json.str r.prediction),
     ("probability", Json.num r.probability),
     ("all_probabilities", Json.obj (r.all_probabilities.map fun kv => (kv.1, Json.num kv.2)))]

/-- Route handler `predict` (lines 148-164).  `files` is the multipart
`request.files` multidict; `run` abstracts `predict_condition` applied to
the saved path (everything behind it: the artifact, joblib, librosa and the
classifier).  Returns the response together with the effect trace: a
missing `file` field returns 400 at once; otherwise the upload is saved to
`os.path.join(tempfile.gettempdir(), file.filename)` and the prediction
runs under `try`, any exception becoming a 500 with `str(e)`. -/
def predictRoute (tempDir : String) (files : List (String × UploadedFile))
    (run : String → Except String PredictResult) : HttpResponse × List Effect :=
  match files.find? (fun kv => kv.1 == "file") with
  | none => (⟨400, Json.obj [("error", Json.str "No file uploaded")]⟩, [])
  | some kv =>
    let file_path := osPathJoin tempDir kv.2.filename
    let eff := [Effect.saveFile file_path kv.2.content, Effect.runPrediction file_path]
    match run file_path with
    | Except.ok r => (⟨200, resultToJson r⟩, eff)
    | Except.error e => (⟨500, Json.obj [("error", Json.str e)]⟩, eff)

/-! ## Theorems: the /predict handler -/

/-- C5: a POST whose multipart form data has no `file` field gets status
400 with a JSON body carrying an `error` field, and nothing is saved nor
any prediction run (the effect trace is empty). -/
theorem predict_missing_file_400 (tempDir : String)
    (files : List (String × UploadedFile))
    (run : String → Except String PredictResult)
    (h : ∀ kv ∈ files, kv.1 ≠ "file") :
    (predictRoute tempDir files run).1.status = 400 ∧
    jsonHasKey (predictRoute tempDir files run).1.body "error" = true ∧
    (predictRoute tempDir files run).2 = [] := by
  have hf : files.find? (fun kv => kv.1 == "file") = none := by
    apply List.find?_eq_none.mpr
    intro kv hkv
    simpa using h kv hkv
  simp [predictRoute, hf, jsonHasKey]

/-- Witness for C5 at a concrete request whose only field is not `file`. -/
theorem predict_missing_file_400_witness :
    (∀ kv ∈ [("other", (⟨"a.wav", "RIFF"⟩ : UploadedFile))], kv.1 ≠ "file") ∧
    ((predictRoute "/tmp" [("other", ⟨"a.wav", "RIFF"⟩)] (fun _ => Except.error "boom")).1.status = 400 ∧
     jsonHasKey (predictRoute "/tmp" [("other", ⟨"a.wav", "RIFF"⟩)] (fun _ => Except.error "boom")).1.body "error" = true ∧
     (predictRoute "/tmp" [("other", ⟨"a.wav", "RIFF"⟩)] (fun _ => Except.error "boom")).2 = []) :=
  ⟨by decide, predict_missing_file_400 "/tmp" [("other", ⟨"a.wav", "RIFF"⟩)]
    (fun _ => Except.error "boom") (by decide)⟩

/-- C6: when the request has a `file` field and the prediction raises any
exception, the response is status 500 with body containing the exception
message under `error`; in particular `predict_condition` raises a
`FileNotFoundError` with exactly this message when the model artifact is
absent from its fixed relative path. -/
theorem predict_exception_500 (tempDir : String)
    (files : List (String × UploadedFile)) (kv : String × UploadedFile)
    (run : String → Except String PredictResult) (e : String) (m : ModelBehavior)
    (hfind : files.find? (fun kv => kv.1 == "file") = some kv)
    (hrun : run (osPathJoin tempDir kv.2.filename) = Except.error e) :
    (predictRoute tempDir files run).1 = ⟨500, Json.obj [("error", Json.str e)]⟩ ∧
    predict_condition false m =
      Except.error "Model file not found: respiratory_classifier.pkl" := by
  constructor
  · simp [predictRoute, hfind, hrun]
  · rfl

/-- Witness for C6 at a concrete request and a failing prediction. -/
theorem predict_exception_500_witness :
    ([("file", (⟨"a.wav", "RIFF"⟩ : UploadedFile))].find? (fun kv => kv.1 == "file") =
      some ("file", ⟨"a.wav", "RIFF"⟩)) ∧
    ((fun _ => Except.error "boom" : String → Except String PredictResult)
        (osPathJoin "/tmp" ("file", (⟨"a.wav", "RIFF"⟩ : UploadedFile)).2.filename) =
      Except.error "boom") ∧
    ((predictRoute "/tmp" [("file", ⟨"a.wav", "RIFF"⟩)] (fun _ => Except.error "boom")).1 =
      ⟨500, Json.obj [("error", Json.str "boom")]⟩ ∧
     predict_condition false ⟨⟨some 0, "0"⟩, [], []⟩ =
      Except.error "Model file not found: respiratory_classifier.pkl") :=
  ⟨rfl, rfl, predict_exception_500 "/tmp" [("file", ⟨"a.wav", "RIFF"⟩)]
    ("file", ⟨"a.wav", "RIFF"⟩) (fun _ => Except.error "boom") "boom"
    ⟨⟨some 0, "0"⟩, [], []⟩ rfl rfl⟩

/-- C8: any two requests whose uploaded files carry the same filename are
written to the identical path `os.path.join(tempfile.gettempdir(), filename)`;
the saved path depends only on the uploaded filename. -/
theorem predict_same_temp_path (tempDir : String)
    (files1 files2 : List (String × UploadedFile))
    (kv1 kv2 : String × UploadedFile)
    (run1 run2 : String → Except String PredictResult)
    (h1 : files1.find? (fun kv => kv.1 == "file") = some kv1)
    (h2 : files2.find? (fun kv => kv.1 == "file") = some kv2)
    (hname : kv1.2.filename = kv2.2.filename) :
    savedPaths (predictRoute tempDir files1 run1).2 = [osPathJoin tempDir kv1.2.filename] ∧
    savedPaths (predictRoute tempDir files2 run2).2 = [osPathJoin tempDir kv1.2.filename] := by
  have g : ∀ (files : List (String × UploadedFile)) (kv : String × UploadedFile)
      (run : String → Except String PredictResult),
      files.find? (fun kv => kv.1 == "file") = some kv →
      savedPaths (predictRoute tempDir files run).2 = [osPathJoin tempDir kv.2.filename] := by
    intro files kv run hf
    unfold predictRoute
    rw [hf]
    cases hr : run (osPathJoin tempDir kv.2.filename) <;> simp [savedPaths, hr]
  refine ⟨g files1 kv1 run1 h1, ?_⟩
  rw [hname]
  exact g files2 kv2 run2 h2

/-- Witness for C8: two concrete requests with distinct contents but the
same uploaded filename. -/
theorem predict_same_temp_path_witness :
    ([("file", (⟨"a.wav", "AAAA"⟩ : UploadedFile))].find? (fun kv => kv.1 == "file") =
      some ("file", ⟨"a.wav", "AAAA"⟩)) ∧
    ([("file", (⟨"a.wav", "BBBB"⟩ : UploadedFile))].find? (fun kv => kv.1 == "file") =
      some ("file", ⟨"a.wav", "BBBB"⟩)) ∧
    ("file", (⟨"a.wav", "AAAA"⟩ : UploadedFile)).2.filename =
      ("file", (⟨"a.wav", "BBBB"⟩ : UploadedFile)).2.filename ∧
    (savedPaths (predictRoute "/tmp" [("file", ⟨"a.wav", "AAAA"⟩)] (fun _ => Except.error "x")).2 =
      [osPathJoin "/tmp" "a.wav"] ∧
     savedPaths (predictRoute "/tmp" [("file", ⟨"a.wav", "BBBB"⟩)] (fun _ => Except.error "x")).2 =
      [osPathJoin "/tmp" "a.wav"]) :=
  ⟨rfl, rfl, rfl, predict_same_temp_path "/tmp" [("file", ⟨"a.wav", "AAAA"⟩)]
    [("file", ⟨"a.wav", "BBBB"⟩)] ("file", ⟨"a.wav", "AAAA"⟩) ("file", ⟨"a.wav", "BBBB"⟩)
    (fun _ => Except.error "x") (fun _ => Except.error "x") rfl rfl rfl⟩

/-! ## Theorems: the AudioTrimmer -/

lemma targetSamples_nonneg (d : ℚ) (sr : ℕ) (hd : 0 ≤ d) :
    0 ≤ targetSamples d sr := by
  have hq : 0 ≤ d * (sr : ℚ) := mul_nonneg hd (by positivity)
  unfold targetSamples pyTrunc
  rw [if_pos hq]
  exact Int.floor_nonneg.mpr hq

/-- C1: for a nonnegative configured duration (the configured value is
7.856), the trimming step always emits exactly
`int(target_duration * sample_rate)` samples: a shorter waveform is
zero-padded at the end up to that count and any other waveform is truncated
to exactly that count. -/
theorem audioTrimmer_exact_length (target_duration : ℚ) (a : AudioInfo)
    (hdur : 0 ≤ target_duration) :
    (trimOne target_duration a).data.length =
      (targetSamples target_duration a.sample_rate).toNat ∧
    (a.data.length < (targetSamples target_duration a.sample_rate).toNat →
      (trimOne target_duration a).data =
        a.data ++ List.replicate
          ((targetSamples target_duration a.sample_rate).toNat - a.data.length) 0) ∧
    ((targetSamples target_duration a.sample_rate).toNat ≤ a.data.length →
      (trimOne target_duration a).data =
        a.data.take (targetSamples target_duration a.sample_rate).toNat) := by
  have hts : 0 ≤ targetSamples target_duration a.sample_rate :=
    targetSamples_nonneg _ _ hdur
  simp only [trimOne]
  by_cases hlt : (a.data.length : Int) < targetSamples target_duration a.sample_rate
  · rw [if_pos hlt]
    have hcast : (targetSamples target_duration a.sample_rate -
        (a.data.length : Int)).toNat =
        (targetSamples target_duration a.sample_rate).toNat - a.data.length := by
      omega
    refine ⟨?_, fun _ => by rw [hcast], fun hge => absurd hge (by omega)⟩
    simp only [List.length_append, List.length_replicate]
    omega
  · rw [if_neg hlt]
    have hge : (targetSamples target_duration a.sample_rate).toNat ≤ a.data.length := by
      omega
    have hslice : pySliceTo a.data (targetSamples target_duration a.sample_rate) =
        a.data.take (targetSamples target_duration a.sample_rate).toNat := by
      unfold pySliceTo
      rw [if_pos hts]
    refine ⟨?_, fun hlt2 => absurd hlt2 (by omega), fun _ => hslice⟩
    rw [hslice]
    simp only [List.length_take]
    omega

/-- Witness for C1 at the configured duration 7.856 and a concrete short
waveform: the target count at sample rate 2 is `int(15.712) = 15`. -/
theorem audioTrimmer_exact_length_witness :
    (0 ≤ (7856/1000 : ℚ)) ∧
    ((trimOne (7856/1000) ⟨[1, 2, 3], 2⟩).data.length =
      (targetSamples (7856/1000) (AudioInfo.mk [1, 2, 3] 2).sample_rate).toNat ∧
     ((AudioInfo.mk [1, 2, 3] 2).data.length <
        (targetSamples (7856/1000) (AudioInfo.mk [1, 2, 3] 2).sample_rate).toNat →
       (trimOne (7856/1000) ⟨[1, 2, 3], 2⟩).data =
         (AudioInfo.mk [1, 2, 3] 2).data ++ List.replicate
           ((targetSamples (7856/1000) (AudioInfo.mk [1, 2, 3] 2).sample_rate).toNat -
             (AudioInfo.mk [1, 2, 3] 2).data.length) 0) ∧
     ((targetSamples (7856/1000) (AudioInfo.mk [1, 2, 3] 2).sample_rate).toNat ≤
        (AudioInfo.mk [1, 2, 3] 2).data.length →
       (trimOne (7856/1000) ⟨[1, 2, 3], 2⟩).data =
         (AudioInfo.mk [1, 2, 3] 2).data.take
           (targetSamples (7856/1000) (AudioInfo.mk [1, 2, 3] 2).sample_rate).toNat)) :=
  ⟨by norm_num, audioTrimmer_exact_length (7856/1000) ⟨[1, 2, 3], 2⟩ (by norm_num)⟩

/-! ## Theorems: predict_condition and the label map -/

lemma classLabel_of_some {c : PyVal} {i : Int} (h : c.toIntOpt = some i) :
    classLabel c = Except.ok (labelMapGet i c.strRepr) := by
  simp [classLabel, pyIntVal, h, Bind.bind, Except.bind, Pure.pure, Except.pure]

lemma classLabel_eq_classKeyD {c : PyVal} {i : Int} (h : c.toIntOpt = some i) :
    classLabel c = Except.ok (classKeyD c) := by
  rw [classLabel_of_some h, classKeyD, h]
  rfl

lemma labelMapGet_mem (i : Int) (d : String) (h0 : 0 ≤ i) (h8 : i < 8) :
    labelMapGet i d ∈ labelSet := by
  interval_cases i <;> simp [labelMapGet, LABEL_MAP, labelSet, List.find?]

lemma labelMapGet_not_key {i : Int} (h : ¬ i ∈ LABEL_MAP.map Prod.fst) (d : String) :
    labelMapGet i d = d := by
  have hf : LABEL_MAP.find? (fun kv => kv.1 == i) = none := by
    apply List.find?_eq_none.mpr
    intro kv hkv
    simp only [beq_iff_eq]
    intro he
    exact h (he ▸ List.mem_map_of_mem Prod.fst hkv)
  simp [labelMapGet, hf]

lemma predictionOutcome_ok_iff {p : PyVal} {cs : List PyVal} {ps : List ℚ}
    {r : PredictResult} :
    predictionOutcome p cs ps = Except.ok r ↔
      ∃ m l d, npArrayMax ps = Except.ok m ∧ classLabel p = Except.ok l ∧
        buildAllProbabilities cs ps = Except.ok d ∧ r = ⟨l, m, d⟩ := by
  unfold predictionOutcome
  cases hm : npArrayMax ps <;>
    cases hl : classLabel p <;>
      cases hd : buildAllProbabilities cs ps <;>
        simp [Bind.bind, Except.bind, Pure.pure, Except.pure, hm, hl, hd, eq_comm]

/-- C2 counterexample: with a classifier predicting the class 8 (not a key
of LABEL_MAP), the prediction succeeds and the returned label is the string
"8", which is not a member of the 8-entry label set. -/
theorem predicted_label_counterexample :
    predictionOutcome ⟨some 8, "8"⟩ [⟨some 8, "8"⟩] [1] =
      Except.ok ⟨"8", 1, [("8", 1)]⟩ ∧
    ¬ ("8" ∈ labelSet) := by
  exact ⟨rfl, by decide⟩

/-- C2 (amended): for every successful prediction whose predicted class
converts to an integer that is a key of LABEL_MAP (0 to 7), the returned
label is a member of the fixed 8-entry label set; for any other predicted
class the field falls back to `str(prediction)`. -/
theorem predicted_label_in_set (p : PyVal) (cs : List PyVal) (ps : List ℚ)
    (r : PredictResult) (i : Int)
    (hp : p.toIntOpt = some i) (h0 : 0 ≤ i) (h8 : i < 8)
    (hok : predictionOutcome p cs ps = Except.ok r) :
    r.prediction ∈ labelSet := by
  rcases predictionOutcome_ok_iff.mp hok with ⟨m, l, d, _, hl, _, hr⟩
  rw [classLabel_of_some hp] at hl
  have hlv : l = labelMapGet i p.strRepr := by
    simpa [eq_comm] using hl
  rw [hr, hlv]
  exact labelMapGet_mem i _ h0 h8

/-- Witness for the amended C2 at a concrete in-range class. -/
theorem predicted_label_in_set_witness :
    (⟨some 3, "3"⟩ : PyVal).toIntOpt = some 3 ∧ (0 ≤ (3 : Int)) ∧ ((3 : Int) < 8) ∧
    predictionOutcome ⟨some 3, "3"⟩ [⟨some 3, "3"⟩] [1] =
      Except.ok ⟨"COPD", 1, [("COPD", 1)]⟩ ∧
    (PredictResult.mk "COPD" 1 [("COPD", 1)]).prediction ∈ labelSet :=
  ⟨rfl, by decide, by decide, rfl,
    predicted_label_in_set ⟨some 3, "3"⟩ [⟨some 3, "3"⟩] [1]
      ⟨"COPD", 1, [("COPD", 1)]⟩ 3 rfl (by decide) (by decide) rfl⟩

/-- C9 counterexample: a class value on which `int()` raises (for example a
classifier trained on string labels, here the raw class value "COPD") is not
a key of the label map, yet `predict_condition` does not fall back to
`str`: the `int()` call itself raises and the prediction fails. -/
theorem int_fallback_counterexample :
    predictionOutcome ⟨none, "COPD"⟩ [⟨none, "COPD"⟩] [1] =
      Except.error "invalid literal for int() with base 10: COPD" := by
  rfl

lemma buildAll_ok_aux (cs : List PyVal)
    (hconv : ∀ c ∈ cs, (c.toIntOpt).isSome = true) :
    ∀ (ps : List ℚ) (acc : List (String × ℚ)),
      ∃ d, (cs.zip ps).foldlM
          (fun d cp => do
            let k ← classLabel cp.1
            pure (dictInsert d k cp.2)) acc = Except.ok d := by
  induction cs with
  | nil => intro ps acc; exact ⟨acc, rfl⟩
  | cons c cs ih =>
    intro ps acc
    cases ps with
    | nil => exact ⟨acc, rfl⟩
    | cons p ps =>
      obtain ⟨i, hi⟩ := Option.isSome_iff_exists.mp (hconv c (by simp))
      obtain ⟨d, hd⟩ := ih (fun c hc => hconv c (by simp [hc])) ps (dictInsert acc (labelMapGet i c.strRepr) p)
      refine ⟨d, ?_⟩
      simp only [List.zip_cons_cons, List.foldlM_cons, classLabel_of_some hi,
        Bind.bind, Except.bind, Pure.pure, Except.pure]
      exact hd

lemma buildAllProbabilities_ok (cs : List PyVal) (ps : List ℚ)
    (hconv : ∀ c ∈ cs, (c.toIntOpt).isSome = true) :
    ∃ d, buildAllProbabilities cs ps = Except.ok d :=
  buildAll_ok_aux cs hconv ps []

/-- C9 (amended): provided `int()` succeeds on the predicted class and on
every class of `model.classes_` (as it does for any numeric class array)
and the probability array is nonempty, `predict_condition` does not fail,
and any class value whose integer conversion is not a key of the 8-entry
label map is replaced by its `str` representation, both for the
`prediction` field and for the keys of `all_probabilities`; when `int()`
itself raises (for example string-labelled classes), the prediction fails
instead of falling back. -/
theorem int_fallback (p : PyVal) (cs : List PyVal) (ps : List ℚ) (i : Int)
    (hp : p.toIntOpt = some i)
    (hcs : ∀ c ∈ cs, (c.toIntOpt).isSome = true)
    (hne : ps ≠ []) :
    (∃ r, predictionOutcome p cs ps = Except.ok r ∧
        (¬ i ∈ LABEL_MAP.map Prod.fst → r.prediction = p.strRepr)) ∧
    (∀ c ∈ cs, ∀ j, c.toIntOpt = some j → ¬ j ∈ LABEL_MAP.map Prod.fst →
        classLabel c = Except.ok c.strRepr) := by
  constructor
  · obtain ⟨m, hm⟩ : ∃ m, npArrayMax ps = Except.ok m := by
      cases ps with
      | nil => exact absurd rfl hne
      | cons x xs => exact ⟨xs.foldl max x, rfl⟩
    obtain ⟨d, hd⟩ := buildAllProbabilities_ok cs ps hcs
    refine ⟨⟨labelMapGet i p.strRepr, m, d⟩, ?_, ?_⟩
    · exact predictionOutcome_ok_iff.mpr ⟨m, labelMapGet i p.strRepr, d, hm,
        classLabel_of_some hp, hd, rfl⟩
    · intro hkey
      exact labelMapGet_not_key hkey p.strRepr
  · intro c _ j hj hkey
    rw [classLabel_of_some hj, labelMapGet_not_key hkey]

/-- Witness for the amended C9 at a classifier predicting the numeric class
9, outside the key range of LABEL_MAP. -/
theorem int_fallback_witness :
    (⟨some 9, "9"⟩ : PyVal).toIntOpt = some 9 ∧
    (∀ c ∈ [(⟨some 9, "9"⟩ : PyVal)], (c.toIntOpt).isSome = true) ∧
    ([(1 : ℚ)] ≠ []) ∧
    ((∃ r, predictionOutcome ⟨some 9, "9"⟩ [⟨some 9, "9"⟩] [1] = Except.ok r ∧
        (¬ (9 : Int) ∈ LABEL_MAP.map Prod.fst → r.prediction = (⟨some 9, "9"⟩ : PyVal).strRepr)) ∧
     (∀ c ∈ [(⟨some 9, "9"⟩ : PyVal)], ∀ j, c.toIntOpt = some j →
        ¬ j ∈ LABEL_MAP.map Prod.fst → classLabel c = Except.ok c.strRepr)) :=
  ⟨rfl, by decide, by decide,
    int_fallback ⟨some 9, "9"⟩ [⟨some 9, "9"⟩] [1] 9 rfl (by decide) (by decide)⟩

lemma dictInsert_new (d : List (String × ℚ)) (k : String) (v : ℚ)
    (h : ∀ kv ∈ d, kv.1 ≠ k) : dictInsert d k v = d ++ [(k, v)] := by
  have hfalse : d.any (fun kv => kv.1 == k) = false := by
    rw [List.any_eq_false]
    intro kv hkv
    simpa using h kv hkv
  simp [dictInsert, hfalse]

lemma buildAll_nodup_aux (cs : List PyVal) :
    ∀ (ps : List ℚ) (acc : List (String × ℚ)),
      (∀ c ∈ cs, (c.toIntOpt).isSome = true) →
      (acc.map Prod.fst ++ cs.map classKeyD).Nodup →
      cs.length ≤ ps.length →
      (cs.zip ps).foldlM
          (fun d cp => do
            let k ← classLabel cp.1
            pure (dictInsert d k cp.2)) acc =
        Except.ok (acc ++ (cs.map classKeyD).zip ps) := by
  induction cs with
  | nil => intro ps acc _ _ _; simp [Pure.pure, Except.pure]
  | cons c cs ih =>
    intro ps acc hconv hnd hlen
    cases ps with
    | nil => simp at hlen
    | cons p ps =>
      obtain ⟨i, hi⟩ := Option.isSome_iff_exists.mp (hconv c (by simp))
      have hstep : dictInsert acc (classKeyD c) p = acc ++ [(classKeyD c, p)] := by
        apply dictInsert_new
        intro kv hkv he
        have h1 : classKeyD c ∈ acc.map Prod.fst := he ▸ List.mem_map_of_mem Prod.fst hkv
        have h2 : classKeyD c ∈ (c :: cs).map classKeyD := by simp
        exact (List.nodup_append.mp hnd).2.2 h1 h2
      have hnd2 : ((acc ++ [(classKeyD c, p)]).map Prod.fst ++ cs.map classKeyD).Nodup := by
        have heq : (acc ++ [(classKeyD c, p)]).map Prod.fst ++ cs.map classKeyD =
            acc.map Prod.fst ++ (c :: cs).map classKeyD := by
          simp [List.map_append, List.append_assoc]
        rw [heq]
        exact hnd
      have hrec := ih ps (acc ++ [(classKeyD c, p)])
        (fun c hc => hconv c (by simp [hc])) hnd2 (by simpa using hlen)
      simp only [Bind.bind, Except.bind, Pure.pure, Except.pure] at hrec
      simp only [List.zip_cons_cons, List.foldlM_cons, classLabel_eq_classKeyD hi,
        Bind.bind, Except.bind, Pure.pure, Except.pure, hstep, hrec, List.map_cons]
      simp [List.append_assoc]

lemma buildAll_nodup (cs : List PyVal) (ps : List ℚ)
    (hconv : ∀ c ∈ cs, (c.toIntOpt).isSome = true)
    (hnd : (cs.map classKeyD).Nodup)
    (hlen : cs.length ≤ ps.length) :
    buildAllProbabilities cs ps = Except.ok ((cs.map classKeyD).zip ps) := by
  have := buildAll_nodup_aux cs ps [] hconv (by simpa using hnd) hlen
  simpa [buildAllProbabilities] using this

/-- C3 counterexample: a classifier with float classes 3.0 and 3.5 (both of
which `int()` maps to the key 3, the label "COPD") makes the dict
comprehension overwrite the larger probability, so the reported top
probability 0.7 differs from the maximum 0.3 of the returned
`all_probabilities` values. -/
theorem top_probability_counterexample :
    predictionOutcome ⟨some 3, "3.0"⟩ [⟨some 3, "3.0"⟩, ⟨some 3, "3.5"⟩] [7/10, 3/10] =
      Except.ok ⟨"COPD", 7/10, [("COPD", 3/10)]⟩ ∧
    npArrayMax ((PredictResult.mk "COPD" (7/10) [("COPD", 3/10)]).all_probabilities.map Prod.snd) =
      Except.ok (3/10) ∧
    (PredictResult.mk "COPD" (7/10) [("COPD", (3:ℚ)/10)]).probability ≠ 3/10 := by
  refine ⟨?_, rfl, by norm_num⟩
  norm_num [predictionOutcome, npArrayMax, classLabel, pyIntVal, labelMapGet, LABEL_MAP,
    buildAllProbabilities, dictInsert, Bind.bind, Except.bind, Pure.pure, Except.pure]

/-- C3 (amended): for every successful prediction in which every class
converts under `int()`, the derived label keys of the classes are pairwise
distinct (true in particular for distinct integer classes) and the class
array and probability array have equal length (the sklearn contract), the
reported `probability` equals the maximum of the values of the returned
`all_probabilities` mapping. -/
theorem top_probability_is_max (p : PyVal) (cs : List PyVal) (ps : List ℚ)
    (r : PredictResult)
    (hconv : ∀ c ∈ cs, (c.toIntOpt).isSome = true)
    (hnd : (cs.map classKeyD).Nodup)
    (hlen : cs.length = ps.length)
    (hok : predictionOutcome p cs ps = Except.ok r) :
    npArrayMax (r.all_probabilities.map Prod.snd) = Except.ok r.probability := by
  rcases predictionOutcome_ok_iff.mp hok with ⟨m, l, d, hm, _, hd, hr⟩
  rw [buildAll_nodup cs ps hconv hnd (le_of_eq hlen)] at hd
  have hdv : d = (cs.map classKeyD).zip ps := by simpa [eq_comm] using hd
  have hvals : ((cs.map classKeyD).zip ps).map Prod.snd = ps :=
    List.map_snd_zip _ _ (by simpa using le_of_eq hlen.symm)
  rw [hr]
  show npArrayMax (d.map Prod.snd) = Except.ok m
  rw [hdv, hvals]
  exact hm

/-- Witness for the amended C3 with two distinct integer classes. -/
theorem top_probability_is_max_witness :
    (∀ c ∈ [(⟨some 6, "6"⟩ : PyVal), ⟨some 7, "7"⟩], (c.toIntOpt).isSome = true) ∧
    (([(⟨some 6, "6"⟩ : PyVal), ⟨some 7, "7"⟩].map classKeyD).Nodup) ∧
    ([(⟨some 6, "6"⟩ : PyVal), ⟨some 7, "7"⟩].length = [(1 : ℚ), 0].length) ∧
    predictionOutcome ⟨some 6, "6"⟩ [⟨some 6, "6"⟩, ⟨some 7, "7"⟩] [1, 0] =
      Except.ok ⟨"Healthy", 1, [("Healthy", 1), ("URTI", 0)]⟩ ∧
    npArrayMax ((PredictResult.mk "Healthy" 1 [("Healthy", 1), ("URTI", 0)]).all_probabilities.map Prod.snd) =
      Except.ok (PredictResult.mk "Healthy" 1 [("Healthy", 1), ("URTI", 0)]).probability :=
  ⟨by decide, by decide, rfl, by decide,
    top_probability_is_max ⟨some 6, "6"⟩ [⟨some 6, "6"⟩, ⟨some 7, "7"⟩] [1, 0]
      ⟨"Healthy", 1, [("Healthy", 1), ("URTI", 0)]⟩ (by decide) (by decide) rfl (by decide)⟩

/-- C7 counterexample: with the same colliding float classes, a probability
array summing to 1 produces an `all_probabilities` mapping whose values sum
to 0.3, not 1: the overwrite on a duplicated key drops mass. -/
theorem probabilities_sum_counterexample :
    ([(7:ℚ)/10, 3/10].sum = 1) ∧
    predictionOutcome ⟨some 3, "3.0"⟩ [⟨some 3, "3.0"⟩, ⟨some 3, "3.5"⟩] [7/10, 3/10] =
      Except.ok ⟨"COPD", 7/10, [("COPD", 3/10)]⟩ ∧
    ((PredictResult.mk "COPD" (7/10) [("COPD", (3:ℚ)/10)]).all_probabilities.map Prod.snd).sum ≠ 1 := by
  refine ⟨by norm_num, ?_, by norm_num⟩
  norm_num [predictionOutcome, npArrayMax, classLabel, pyIntVal, labelMapGet, LABEL_MAP,
    buildAllProbabilities, dictInsert, Bind.bind, Except.bind, Pure.pure, Except.pure]

/-- C7 (amended): for every successful prediction in which every class
converts under `int()`, the derived label keys are pairwise distinct, the
class and probability arrays have equal length and the classifier's
probability distribution sums to 1 (the sklearn `predict_proba` contract),
the values of the returned `all_probabilities` mapping sum to 1. -/
theorem probabilities_sum_one (p : PyVal) (cs : List PyVal) (ps : List ℚ)
    (r : PredictResult)
    (hconv : ∀ c ∈ cs, (c.toIntOpt).isSome = true)
    (hnd : (cs.map classKeyD).Nodup)
    (hlen : cs.length = ps.length)
    (hsum : ps.sum = 1)
    (hok : predictionOutcome p cs ps = Except.ok r) :
    (r.all_probabilities.map Prod.snd).sum = 1 := by
  rcases predictionOutcome_ok_iff.mp hok with ⟨m, l, d, _, _, hd, hr⟩
  rw [buildAll_nodup cs ps hconv hnd (le_of_eq hlen)] at hd
  have hdv : d = (cs.map classKeyD).zip ps := by simpa [eq_comm] using hd
  have hvals : ((cs.map classKeyD).zip ps).map Prod.snd = ps :=
    List.map_snd_zip _ _ (by simpa using le_of_eq hlen.symm)
  rw [hr]
  show (d.map Prod.snd).sum = 1
  rw [hdv, hvals]
  exact hsum

/-- Witness for the amended C7 with two distinct integer classes and a
degenerate distribution summing to 1. -/
theorem probabilities_sum_one_witness :
    (∀ c ∈ [(⟨some 0, "0"⟩ : PyVal), ⟨some 3, "3"⟩], (c.toIntOpt).isSome = true) ∧
    (([(⟨some 0, "0"⟩ : PyVal), ⟨some 3, "3"⟩].map classKeyD).Nodup) ∧
    ([(⟨some 0, "0"⟩ : PyVal), ⟨some 3, "3"⟩].length = [(0 : ℚ), 1].length) ∧
    ([(0 : ℚ), 1].sum = 1) ∧
    predictionOutcome ⟨some 0, "0"⟩ [⟨some 0, "0"⟩, ⟨some 3, "3"⟩] [0, 1] =
      Except.ok ⟨"Asthma", 1, [("Asthma", 0), ("COPD", 1)]⟩ ∧
    ((PredictResult.mk "Asthma" 1 [("Asthma", 0), ("COPD", 1)]).all_probabilities.map Prod.snd).sum = 1 :=
  ⟨by decide, by decide, rfl, by norm_num, by decide,
    probabilities_sum_one ⟨some 0, "0"⟩ [⟨some 0, "0"⟩, ⟨some 3, "3"⟩] [0, 1]
      ⟨"Asthma", 1, [("Asthma", 0), ("COPD", 1)]⟩ (by decide) (by decide) rfl
      (by norm_num) (by decide)⟩

/-! ## Theorems: the feature-statistics table -/

lemma mem_dfColumns_aux (df : List Row) (acc : List String) (c : String) :
    (c ∈ df.foldl (fun acc row => acc ++ (row.map Prod.fst).filter (fun c => ¬ c ∈ acc)) acc) ↔
      (c ∈ acc ∨ ∃ row, row ∈ df ∧ c ∈ row.map Prod.fst) := by
  induction df generalizing acc with
  | nil => simp
  | cons row df ih =>
    rw [List.foldl_cons, ih]
    constructor
    · rintro (h | ⟨r, hr, hcr⟩)
      · rcases List.mem_append.mp h with h | h
        · exact Or.inl h
        · exact Or.inr ⟨row, List.mem_cons_self row df, (List.mem_filter.mp h).1⟩
      · exact Or.inr ⟨r, List.mem_cons_of_mem row hr, hcr⟩
    · rintro (h | ⟨r, hr, hcr⟩)
      · exact Or.inl (List.mem_append.mpr (Or.inl h))
      · rcases List.mem_cons.mp hr with rfl | hr2
        · by_cases hacc : c ∈ acc
          · exact Or.inl (List.mem_append.mpr (Or.inl hacc))
          · refine Or.inl (List.mem_append.mpr (Or.inr ?_))
            exact List.mem_filter.mpr ⟨hcr, by simpa using hacc⟩
        · exact Or.inr ⟨r, hr2, hcr⟩

lemma mem_dfColumns {df : List Row} {c : String} :
    c ∈ dfColumns df ↔ ∃ row, row ∈ df ∧ c ∈ row.map Prod.fst := by
  simpa [dfColumns] using mem_dfColumns_aux df [] c

lemma not_mem_dfColumns_dfDrop (df : List Row) (c : String) :
    ¬ c ∈ dfColumns (dfDrop df c) := by
  rw [mem_dfColumns]
  rintro ⟨row, hrow, hc⟩
  rcases List.mem_map.mp hrow with ⟨row0, _, rfl⟩
  rcases List.mem_map.mp hc with ⟨kv, hkv, hkvc⟩
  have := (List.mem_filter.mp hkv).2
  simp [hkvc] at this

lemma dfColumns_mapFilter_subset (df : List Row) (p : Row → String × Cell → Bool)
    (c : String) (h : c ∈ dfColumns (df.map fun row => row.filter (p row))) :
    c ∈ dfColumns df := by
  rw [mem_dfColumns] at h ⊢
  rcases h with ⟨row, hrow, hc⟩
  rcases List.mem_map.mp hrow with ⟨row0, hrow0, rfl⟩
  rcases List.mem_map.mp hc with ⟨kv, hkv, hkvc⟩
  exact ⟨row0, hrow0, hkvc ▸ List.mem_map_of_mem Prod.fst (List.mem_filter.mp hkv).1⟩

lemma dfColumns_dfDrop_subset (d : List Row) (a b : String)
    (h : a ∈ dfColumns (dfDrop d b)) : a ∈ dfColumns d := by
  unfold dfDrop at h
  exact dfColumns_mapFilter_subset d _ a h

lemma dfColumns_selectNonObject_subset (d : List Row) (a : String)
    (h : a ∈ dfColumns (selectNonObject d)) : a ∈ dfColumns d := by
  unfold selectNonObject at h
  exact dfColumns_mapFilter_subset d _ a h

lemma dropFold_select_excluded (d0 : List Row) :
    ¬ "mel_spectrogram_min" ∈ dfColumns (selectNonObject
        (excluded_features.foldl
          (fun d c => if c ∈ dfColumns d then dfDrop d c else d) d0)) ∧
    ¬ "chroma_stft_max" ∈ dfColumns (selectNonObject
        (excluded_features.foldl
          (fun d c => if c ∈ dfColumns d then dfDrop d c else d) d0)) := by
  have hdropped : ∀ (d : List Row) (a : String),
      ¬ a ∈ dfColumns (if a ∈ dfColumns d then dfDrop d a else d) := by
    intro d a
    by_cases h : a ∈ dfColumns d
    · rw [if_pos h]; exact not_mem_dfColumns_dfDrop d a
    · rw [if_neg h]; exact h
  have hpreserved : ∀ (d : List Row) (a b : String), ¬ a ∈ dfColumns d →
      ¬ a ∈ dfColumns (if b ∈ dfColumns d then dfDrop d b else d) := by
    intro d a b ha
    by_cases h : b ∈ dfColumns d
    · rw [if_pos h]
      exact fun hc => ha (dfColumns_dfDrop_subset d a b hc)
    · rw [if_neg h]; exact ha
  have hsel : ∀ (d : List Row) (a : String), ¬ a ∈ dfColumns d →
      ¬ a ∈ dfColumns (selectNonObject d) :=
    fun d a ha hc => ha (dfColumns_selectNonObject_subset d a hc)
  simp only [excluded_features, List.foldl_cons, List.foldl_nil]
  constructor
  · exact hsel _ _ (hpreserved _ _ _ (hdropped d0 "mel_spectrogram_min"))
  · exact hsel _ _ (hdropped _ "chroma_stft_max")

/-- C4: for every input and every numeric std reducer, the table produced by
the statistics step with the configured excluded-column list contains
neither `mel_spectrogram_min` nor `chroma_stft_max`. -/
theorem excluded_columns_absent (stdFn : List ℚ → ℚ)
    (X : List (String × List (String × List ℚ))) :
    ¬ "mel_spectrogram_min" ∈ dfColumns (calcStatsTransform stdFn excluded_features X) ∧
    ¬ "chroma_stft_max" ∈ dfColumns (calcStatsTransform stdFn excluded_features X) := by
  have h := dropFold_select_excluded (X.map fun e => fileStatsRow stdFn e.1 e.2)
  unfold calcStatsTransform
  exact h

lemma string_data_append (a b : String) : (a ++ b).data = a.data ++ b.data := by
  cases a
  cases b
  rfl

lemma append_suffix_ne (s suf t : String)
    (hle : suf.data.length ≤ t.data.length)
    (hne : t.data.drop (t.data.length - suf.data.length) ≠ suf.data) :
    s ++ suf ≠ t := by
  intro h
  have hd : s.data ++ suf.data = t.data := by
    rw [← string_data_append, h]
  have hlen : s.data.length + suf.data.length = t.data.length := by
    rw [← hd]
    simp
  apply hne
  have hs : t.data.length - suf.data.length = s.data.length := by omega
  rw [hs, ← hd, List.drop_left]

lemma mean_col_ne_filename (s : String) : s ++ "_mean" ≠ "filename" :=
  append_suffix_ne s "_mean" "filename" (by decide) (by decide)

lemma std_col_ne_filename (s : String) : s ++ "_std" ≠ "filename" :=
  append_suffix_ne s "_std" "filename" (by decide) (by decide)

lemma max_col_ne_filename (s : String) : s ++ "_max" ≠ "filename" :=
  append_suffix_ne s "_max" "filename" (by decide) (by decide)

lemma min_col_ne_filename (s : String) : s ++ "_min" ≠ "filename" :=
  append_suffix_ne s "_min" "filename" (by decide) (by decide)

lemma fileStatsRow_filename_cell (stdFn : List ℚ → ℚ) (fn : String)
    (features : List (String × List ℚ)) (cell : Cell)
    (h : ("filename", cell) ∈ fileStatsRow stdFn fn features) : cell = Cell.str fn := by
  unfold fileStatsRow at h
  rcases List.mem_cons.mp h with h | h
  · simp only [Prod.mk.injEq] at h
    exact h.2
  · exfalso
    rcases List.mem_flatMap.mp h with ⟨f, _, hkv⟩
    simp only [List.mem_cons, List.not_mem_nil, or_false, Prod.mk.injEq] at hkv
    rcases hkv with ⟨h1, _⟩ | ⟨h1, _⟩ | ⟨h1, _⟩ | ⟨h1, _⟩
    · exact mean_col_ne_filename f.1 h1.symm
    · exact std_col_ne_filename f.1 h1.symm
    · exact max_col_ne_filename f.1 h1.symm
    · exact min_col_ne_filename f.1 h1.symm

lemma row_of_dropFold (excluded : List String) (df : List Row) (row : Row)
    (h : row ∈ excluded.foldl (fun d c => if c ∈ dfColumns d then dfDrop d c else d) df) :
    ∃ row0, row0 ∈ df ∧ ∀ kv ∈ row, kv ∈ row0 := by
  induction excluded generalizing df with
  | nil => exact ⟨row, h, fun kv hkv => hkv⟩
  | cons c cs ih =>
    rw [List.foldl_cons] at h
    obtain ⟨row1, hrow1, hsub1⟩ := ih _ h
    by_cases hc : c ∈ dfColumns df
    · rw [if_pos hc] at hrow1
      rcases List.mem_map.mp hrow1 with ⟨row0, hrow0, rfl⟩
      exact ⟨row0, hrow0, fun kv hkv => (List.mem_filter.mp (hsub1 kv hkv)).1⟩
    · rw [if_neg hc] at hrow1
      exact ⟨row1, hrow1, hsub1⟩

/-- C10: for every input, every numeric std reducer and even every configured
excluded-column list, the table produced by the statistics step never
contains the `filename` column: its cells are Python strings, so the final
`select_dtypes(exclude=['object'])` removes it. -/
theorem filename_column_absent (stdFn : List ℚ → ℚ) (excluded : List String)
    (X : List (String × List (String × List ℚ))) :
    ¬ "filename" ∈ dfColumns (calcStatsTransform stdFn excluded X) := by
  intro h
  unfold calcStatsTransform at h
  set d := excluded.foldl (fun d c => if c ∈ dfColumns d then dfDrop d c else d)
    (X.map fun e => fileStatsRow stdFn e.1 e.2) with hd
  rw [mem_dfColumns] at h
  rcases h with ⟨row, hrow, hcol⟩
  rcases List.mem_map.mp hcol with ⟨kv, hkv, hfst⟩
  unfold selectNonObject at hrow
  rcases List.mem_map.mp hrow with ⟨row1, hrow1, rfl⟩
  obtain ⟨k1, cell⟩ := kv
  dsimp only at hfst
  subst hfst
  have hkv1 := List.mem_filter.mp hkv
  have hobj : colIsObject d "filename" = false := by
    simpa using hkv1.2
  obtain ⟨row0, hrow0, hsub⟩ := row_of_dropFold excluded _ row1 hrow1
  rcases List.mem_map.mp hrow0 with ⟨e, _, rfl⟩
  have hkv_in0 : ("filename", cell) ∈ fileStatsRow stdFn e.1 e.2 := hsub _ hkv1.1
  have hcell : cell = Cell.str e.1 := fileStatsRow_filename_cell stdFn e.1 e.2 cell hkv_in0
  have htrue : colIsObject d "filename" = true := by
    unfold colIsObject
    rw [List.any_eq_true]
    refine ⟨row1, hrow1, ?_⟩
    rw [List.any_eq_true]
    exact ⟨("filename", cell), hkv1.1, by simp [hcell, Cell.isStr]⟩
  rw [hobj] at htrue
  exact Bool.false_ne_true htrue
